import Mathlib

/-!
Verification of the `KafkaConnectionResolver` component of
pip-services3-gox/pip-services3-kafka-gox (file
`connect/KafkaConnectionResolver.go`).

The Go code is shallowly embedded: configuration maps
(`ConfigParams` from the commons library) become association lists of
string pairs with first-match lookup; the Go `nil` pointers become
`Option`; the pair `(options, err)` returned by `Resolve`/`Compose`
becomes `Option ConfigParams × Option ConfigError` mirroring the two
return statements of the Go code.  Strings are modelled at character
granularity (`String` backed by `List Char`); the byte indices of the Go
`strings.Index` coincide with character indices on the ASCII
connection strings this component manipulates.
-/

namespace Kafka

/-! ### String helpers modelling `strings.Index` and slicing -/

/-- Character-list prefix test (model of the substring match used by
`strings.Index`). -/
def prefixMatch : List Char → List Char → Bool
  | [], _ => true
  | _ :: _, [] => false
  | a :: as, b :: bs => if a = b then prefixMatch as bs else false

/-- Index of the first occurrence of `p` in `l`, if any. -/
def firstIndex (p : List Char) : List Char → Option Nat
  | [] => if prefixMatch p [] then some 0 else none
  | c :: t => if prefixMatch p (c :: t) then some 0 else (firstIndex p t).map (· + 1)

/-- Model of the Go `strings.Index`: index of the first occurrence of
`sub` in `s`, or `-1` when absent. -/
def goIndex (s sub : String) : Int :=
  match firstIndex sub.toList s.toList with
  | some n => (n : Int)
  | none => -1

/-- Model of the Go slice `s[:n]`. -/
def strTake (s : String) (n : Nat) : String := String.mk (s.toList.take n)

/-- Model of the Go slice `s[n:]`. -/
def strDrop (s : String) (n : Nat) : String := String.mk (s.toList.drop n)

/-- `p` is a prefix of `s` (used to state claims about URI prefixes). -/
def strStartsWith (s p : String) : Bool := prefixMatch p.toList s.toList

/-- Decimal digit parser for the port converter. -/
def digitVal (c : Char) : Option Nat :=
  if '0' ≤ c ∧ c ≤ '9' then some (c.toNat - '0'.toNat) else none

def parseDecAux : List Char → Nat → Option Nat
  | [], acc => some acc
  | c :: t, acc =>
    match digitVal c with
    | some d => parseDecAux t (acc * 10 + d)
    | none => none

/-- Parse a non-empty all-digit list as a decimal number. -/
def parseDecList : List Char → Option Nat
  | [] => none
  | l => parseDecAux l 0

/-- Model of the commons `IntegerConverter` applied to a string value:
parse a (possibly negated) decimal integer, `none` when the string is
not numeric.  (The Go converter also accepts floating-point spellings;
the claims only exercise plain decimal integers.) -/
def goParseInt (s : String) : Option Int :=
  match s.toList with
  | '-' :: t => (parseDecList t).map (fun n => -(n : Int))
  | l => (parseDecList l).map (fun n => (n : Int))

/-! ### `ConfigParams` (commons library map with string keys/values) -/

/-- First-match lookup in an association list. -/
def lookupFirst (key : String) : List (String × String) → Option String
  | [] => none
  | p :: t => if p.1 = key then some p.2 else lookupFirst key t

/-- Model of `cconf.ConfigParams`: a map of string keys to string
values, represented as an association list with first-match lookup. -/
structure ConfigParams where
  entries : List (String × String)
deriving DecidableEq

def ConfigParams.get (c : ConfigParams) (key : String) : Option String :=
  lookupFirst key c.entries

/-- `GetAsString`: value at `key`, or `""` when absent. -/
def ConfigParams.getAsString (c : ConfigParams) (key : String) : String :=
  (c.get key).getD ""

/-- `GetAsStringWithDefault`: value at `key`, or the default when absent. -/
def ConfigParams.getAsStringWithDefault (c : ConfigParams) (key d : String) : String :=
  (c.get key).getD d

/-- `GetAsIntegerWithDefault`: numeric value at `key`; the default when
the key is absent or its value is not numeric. -/
def ConfigParams.getAsIntegerWithDefault (c : ConfigParams) (key : String) (d : Int) : Int :=
  match c.get key with
  | some v => (goParseInt v).getD d
  | none => d

/-- `SetDefaults`: merge `d` into `c`, existing keys of `c` winning
(first-writer-wins defaulting). -/
def ConfigParams.setDefaults (c d : ConfigParams) : ConfigParams :=
  ⟨c.entries ++ d.entries.filter (fun p => (c.get p.1).isNone)⟩

/-- `SetAsObject` with a string value: overwrite the key when present,
append it otherwise. -/
def ConfigParams.setAsObject (c : ConfigParams) (key value : String) : ConfigParams :=
  if (c.get key).isSome then
    ⟨c.entries.map (fun p => if p.1 = key then (key, value) else p)⟩
  else ⟨c.entries ++ [(key, value)]⟩

/-! ### `ConnectionParams` / `CredentialParams` (components library) -/

/-- Model of `ccon.ConnectionParams` (embeds a `ConfigParams`). -/
structure ConnectionParams where
  params : ConfigParams
deriving DecidableEq

/-- `Uri()`: the `uri` key, `""` when absent. -/
def ConnectionParams.uri (c : ConnectionParams) : String :=
  c.params.getAsString "uri"

/-- `ProtocolWithDefault(d)`. -/
def ConnectionParams.protocolWithDefault (c : ConnectionParams) (d : String) : String :=
  c.params.getAsStringWithDefault "protocol" d

/-- `Host()`: the `host` key, falling back to `ip`, then `""`. -/
def ConnectionParams.host (c : ConnectionParams) : String :=
  match c.params.get "host" with
  | some v => v
  | none => c.params.getAsString "ip"

/-- `PortWithDefault(d)`. -/
def ConnectionParams.portWithDefault (c : ConnectionParams) (d : Int) : Int :=
  c.params.getAsIntegerWithDefault "port" d

/-- Model of `cauth.CredentialParams` (embeds a `ConfigParams`). -/
structure CredentialParams where
  params : ConfigParams
deriving DecidableEq

/-! ### Errors -/

/-- Model of the `cerr.NewConfigError(correlationId, code, message)`
values produced by the resolver (and, for `Resolve`, of the error
values surfaced verbatim from the two sub-resolvers). -/
structure ConfigError where
  correlationId : String
  code : String
  message : String
deriving DecidableEq

/-! ### `validateConnection` -/

/-- `KafkaConnectionResolver.validateConnection`: nil-check, URI
bypass, protocol, host, port — in that order, short-circuiting. -/
def validateConnection (correlationId : String) (connection : Option ConnectionParams) :
    Option ConfigError :=
  match connection with
  | none => some ⟨correlationId, "NO_CONNECTION", "Kafka connection is not set"⟩
  | some conn =>
    if conn.uri ≠ "" then none
    else if conn.protocolWithDefault "tcp" = "" then
      some ⟨correlationId, "NO_PROTOCOL", "Connection protocol is not set"⟩
    else if conn.protocolWithDefault "tcp" ≠ "tcp" then
      some ⟨correlationId, "UNSUPPORTED_PROTOCOL",
        "The protocol " ++ conn.protocolWithDefault "tcp" ++ " is not supported"⟩
    else if conn.host = "" then
      some ⟨correlationId, "NO_HOST", "Connection host is not set"⟩
    else if conn.portWithDefault 9092 = 0 then
      some ⟨correlationId, "NO_PORT", "Connection port is not set"⟩
    else none

/-! ### `composeOptions` -/

/-- First half of the `uri` stripping inside the connection loop of
`composeOptions`: drop a leading scheme when `://` occurs at a
strictly positive index. -/
def stripScheme (uri : String) : String :=
  if goIndex uri "://" > 0 then strDrop uri ((goIndex uri "://").toNat + 3) else uri

/-- Second half of the stripping: drop a trailing query when `?`
occurs at a strictly positive index. -/
def stripQuery (uri : String) : String :=
  if goIndex uri "?" > 0 then strTake uri (goIndex uri "?").toNat else uri

/-- The full `uri` stripping of the connection loop of
`composeOptions`: scheme first, then query. -/
def stripSchemeQuery (uri : String) : String := stripQuery (stripScheme uri)

/-- The `host:port` token a URI-less connection writes into the
builder (`host`, `":"`, `strconv.Itoa(PortWithDefault(9092))`). -/
def hostPortToken (c : ConnectionParams) : String :=
  c.host ++ ":" ++ toString (c.portWithDefault 9092)

/-- The builder update of `composeOptions`: a `", "` separator when the
builder is non-empty, then the `host:port` token. -/
def appendHostPort (builder : String) (c : ConnectionParams) : String :=
  (if 0 < builder.length then builder ++ ", " else builder) ++ hostPortToken c

/-- Loop state of `composeOptions`: the accumulated options, the
`globalUri` variable, and the `uriBuilder` contents. -/
structure ComposeState where
  options : ConfigParams
  globalUri : String
  uriBuilder : String
deriving DecidableEq

/-- One iteration of the connection loop of `composeOptions`. -/
def composeStep (st : ComposeState) (connection : ConnectionParams) : ComposeState :=
  let options := st.options.setDefaults connection.params
  if st.globalUri ≠ "" then
    { st with options := options }
  else
    let uri := connection.uri
    if uri ≠ "" then
      { options := options, globalUri := stripSchemeQuery uri, uriBuilder := st.uriBuilder }
    else
      { options := options, globalUri := st.globalUri,
        uriBuilder := appendHostPort st.uriBuilder connection }

/-- The state entering the loop: options seeded from the credential
(an empty credential when `nil`), empty `globalUri`, empty builder. -/
def initState (credential : Option CredentialParams) : ComposeState :=
  ⟨(ConfigParams.mk []).setDefaults (credential.getD ⟨⟨[]⟩⟩).params, "", ""⟩

/-- `KafkaConnectionResolver.composeOptions`. -/
def composeOptions (connections : List ConnectionParams)
    (credential : Option CredentialParams) : ConfigParams :=
  let st := connections.foldl composeStep (initState credential)
  if st.globalUri ≠ "" then st.options.setAsObject "uri" st.globalUri
  else st.options.setAsObject "uri" st.uriBuilder

/-! ### `Resolve` / `Compose` -/

/-- The validation loop shared by `Resolve` and `Compose`: the error of
the first invalid connection, `none` when all pass. -/
def firstValidationError (correlationId : String) :
    List (Option ConnectionParams) → Option ConfigError
  | [] => none
  | c :: rest =>
    match validateConnection correlationId c with
    | some e => some e
    | none => firstValidationError correlationId rest

/-- `KafkaConnectionResolver.Compose`.  A Go `[]*ConnectionParams` may
hold nil entries, hence `List (Option ConnectionParams)`; when
validation passes no entry is `none`, so `filterMap id` is the
identity on the lists that reach `composeOptions`. -/
def Compose (correlationId : String) (connections : List (Option ConnectionParams))
    (credential : Option CredentialParams) :
    Option ConfigParams × Option ConfigError :=
  match firstValidationError correlationId connections with
  | some e => (none, some e)
  | none => (some (composeOptions (connections.filterMap id) credential), none)

/-- `KafkaConnectionResolver.Resolve`, with the results of the two
sub-resolver calls (`ConnectionResolver.ResolveAll` and
`CredentialResolver.Lookup`) passed in explicitly. -/
def Resolve (correlationId : String)
    (resolveAllResult : Except ConfigError (List (Option ConnectionParams)))
    (lookupResult : Except ConfigError (Option CredentialParams)) :
    Option ConfigParams × Option ConfigError :=
  match resolveAllResult with
  | .error e => (none, some e)
  | .ok connections =>
    match lookupResult with
    | .error e => (none, some e)
    | .ok credential =>
      match firstValidationError correlationId connections with
      | some e => (none, some e)
      | none => (some (composeOptions (connections.filterMap id) credential), none)

/-! ### Specification-side functions (for stating claims) -/

/-- The comma-joined `host:port` tokens of a connection list. -/
def joinTokens : List ConnectionParams → String
  | [] => ""
  | [c] => hostPortToken c
  | c :: rest => hostPortToken c ++ ", " ++ joinTokens rest

/-- The value the final `uri` key receives, described recursively over
the connection list: the stripped URI of the first connection whose
URI strips to a non-empty string; otherwise the accumulated
`host:port` tokens of the URI-less connections. -/
def finalUriSpec : List ConnectionParams → String → String
  | [], builder => builder
  | c :: rest, builder =>
    if c.uri ≠ "" then
      let s := stripSchemeQuery c.uri
      if s ≠ "" then s else finalUriSpec rest builder
    else finalUriSpec rest (appendHostPort builder c)

end Kafka

namespace Kafka

/-! ### Helper lemmas -/

theorem strLength_pos (s : String) : 0 < s.length ↔ s ≠ "" := by
  cases s with
  | mk data =>
    cases data with
    | nil => simp [String.length]
    | cons c t =>
      constructor
      · intro _ he
        have : (String.mk (c :: t)).data = ("" : String).data := by rw [he]
        simp at this
      · intro _
        simp [String.length]

theorem appendHostPort_length_pos (b : String) (c : ConnectionParams) :
    0 < (appendHostPort b c).length := by
  have h1 : (":" : String).length = 1 := rfl
  simp only [appendHostPort, hostPortToken, String.length_append, h1]
  omega

theorem appendHostPort_ne_empty (b : String) (c : ConnectionParams) :
    appendHostPort b c ≠ "" :=
  (strLength_pos _).mp (appendHostPort_length_pos b c)

theorem lookupFirst_map_set (key value : String) (l : List (String × String))
    (h : (lookupFirst key l).isSome) :
    lookupFirst key (l.map (fun p => if p.1 = key then (key, value) else p)) = some value := by
  induction l with
  | nil => simp [lookupFirst] at h
  | cons p t ih =>
    by_cases hp : p.1 = key
    · simp [lookupFirst, hp]
    · simp [lookupFirst, hp] at h ⊢
      exact ih h

theorem lookupFirst_append_none (key : String) (l1 l2 : List (String × String))
    (h : lookupFirst key l1 = none) :
    lookupFirst key (l1 ++ l2) = lookupFirst key l2 := by
  induction l1 with
  | nil => simp
  | cons p t ih =>
    by_cases hp : p.1 = key
    · simp [lookupFirst, hp] at h
    · simp [lookupFirst, hp] at h ⊢
      exact ih h

theorem get_setAsObject_self (c : ConfigParams) (key value : String) :
    (c.setAsObject key value).get key = some value := by
  unfold ConfigParams.setAsObject
  by_cases h : (c.get key).isSome
  · simp only [h, if_pos]
    exact lookupFirst_map_set key value c.entries h
  · simp only [h, if_neg, Bool.false_eq_true, not_false_eq_true]
    show lookupFirst key (c.entries ++ [(key, value)]) = some value
    rw [lookupFirst_append_none key c.entries _ (by
      cases hg : c.get key with
      | none => exact hg
      | some v => rw [hg] at h; simp at h)]
    simp [lookupFirst]

theorem composeStep_globalUri_ne (st : ComposeState) (c : ConnectionParams)
    (h : st.globalUri ≠ "") :
    composeStep st c = ⟨st.options.setDefaults c.params, st.globalUri, st.uriBuilder⟩ := by
  cases st
  simp [composeStep, h]

theorem composeStep_uri_ne (st : ComposeState) (c : ConnectionParams)
    (hg : st.globalUri = "") (hc : c.uri ≠ "") :
    composeStep st c =
      ⟨st.options.setDefaults c.params, stripSchemeQuery c.uri, st.uriBuilder⟩ := by
  cases st
  subst hg
  simp [composeStep, hc]

theorem composeStep_uri_empty (st : ComposeState) (c : ConnectionParams)
    (hg : st.globalUri = "") (hc : c.uri = "") :
    composeStep st c =
      ⟨st.options.setDefaults c.params, "", appendHostPort st.uriBuilder c⟩ := by
  cases st
  subst hg
  simp [composeStep, hc]

theorem foldl_composeStep_globalUri_ne (conns : List ConnectionParams) (st : ComposeState)
    (h : st.globalUri ≠ "") :
    conns.foldl composeStep st =
      ⟨conns.foldl (fun o c => o.setDefaults c.params) st.options, st.globalUri, st.uriBuilder⟩ := by
  induction conns generalizing st with
  | nil => cases st; rfl
  | cons c rest ih =>
    simp only [List.foldl_cons]
    rw [composeStep_globalUri_ne st c h]
    exact ih _ h

theorem foldl_composeStep_uri_empty (conns : List ConnectionParams) (st : ComposeState)
    (hg : st.globalUri = "") (h : ∀ c ∈ conns, c.uri = "") :
    conns.foldl composeStep st =
      ⟨conns.foldl (fun o c => o.setDefaults c.params) st.options, "",
        conns.foldl appendHostPort st.uriBuilder⟩ := by
  induction conns generalizing st with
  | nil => cases st; subst hg; rfl
  | cons c rest ih =>
    simp only [List.foldl_cons]
    rw [composeStep_uri_empty st c hg (h c (by simp))]
    exact ih _ rfl (fun x hx => h x (by simp [hx]))

theorem foldl_composeStep_uri_value (conns : List ConnectionParams) (st : ComposeState)
    (hg : st.globalUri = "") :
    (if (conns.foldl composeStep st).globalUri ≠ "" then (conns.foldl composeStep st).globalUri
     else (conns.foldl composeStep st).uriBuilder) = finalUriSpec conns st.uriBuilder := by
  induction conns generalizing st with
  | nil => simp [List.foldl_nil, hg, finalUriSpec]
  | cons c rest ih =>
    simp only [List.foldl_cons]
    by_cases hc : c.uri = ""
    · rw [composeStep_uri_empty st c hg hc]
      rw [ih _ rfl]
      simp [finalUriSpec, hc]
    · rw [composeStep_uri_ne st c hg hc]
      by_cases hs : stripSchemeQuery c.uri = ""
      · rw [hs, ih _ rfl]
        simp [finalUriSpec, hc, hs]
      · rw [foldl_composeStep_globalUri_ne rest _ hs]
        simp [finalUriSpec, hc, hs]

theorem foldl_appendHostPort_ne (conns : List ConnectionParams) (b : String) (hb : b ≠ "") :
    conns.foldl appendHostPort b =
      if conns.isEmpty then b else b ++ ", " ++ joinTokens conns := by
  induction conns generalizing b with
  | nil => simp
  | cons c rest ih =>
    simp only [List.foldl_cons, List.isEmpty_cons, if_neg]
    have hb' : appendHostPort b c = b ++ ", " ++ hostPortToken c := by
      simp [appendHostPort, (strLength_pos b).mpr hb]
    rw [hb', ih _ (by rw [← hb']; exact appendHostPort_ne_empty b c)]
    cases rest with
    | nil => simp [joinTokens]
    | cons r rs =>
      simp [joinTokens, String.append_assoc]

theorem foldl_appendHostPort_nil (conns : List ConnectionParams) :
    conns.foldl appendHostPort "" = joinTokens conns := by
  cases conns with
  | nil => rfl
  | cons c rest =>
    simp only [List.foldl_cons]
    have h0 : appendHostPort "" c = hostPortToken c := by
      simp [appendHostPort]
    rw [h0, foldl_appendHostPort_ne rest _ (by
      rw [← h0]; exact appendHostPort_ne_empty "" c)]
    cases rest with
    | nil => simp [joinTokens]
    | cons r rs => simp [joinTokens]

theorem firstValidationError_append (cid : String) (pre l : List (Option ConnectionParams))
    (h : ∀ c ∈ pre, validateConnection cid c = none) :
    firstValidationError cid (pre ++ l) = firstValidationError cid l := by
  induction pre with
  | nil => rfl
  | cons c rest ih =>
    simp only [List.cons_append, firstValidationError, h c (by simp)]
    exact ih (fun x hx => h x (by simp [hx]))

end Kafka

namespace Kafka

/-! ### Prefix / index lemmas for the URI-stripping claims -/

theorem prefixMatch_iff (p l : List Char) : prefixMatch p l = true ↔ ∃ t, l = p ++ t := by
  induction p generalizing l with
  | nil => simp [prefixMatch]
  | cons a as ih =>
    cases l with
    | nil => simp [prefixMatch]
    | cons b bs =>
      simp only [prefixMatch, List.cons_append, List.cons.injEq]
      by_cases hab : a = b
      · subst hab
        simp [ih]
      · rw [if_neg hab]
        simp only [Bool.false_eq_true, false_iff, not_exists]
        rintro t ⟨hba, _⟩
        exact hab hba.symm

theorem firstIndex_at_head (p l : List Char) (h : prefixMatch p l = true) :
    firstIndex p l = some 0 := by
  cases l with
  | nil => unfold firstIndex; rw [if_pos h]
  | cons c t => unfold firstIndex; rw [if_pos h]

theorem firstIndex_cons_miss (p : List Char) (c : Char) (t : List Char)
    (h : prefixMatch p (c :: t) = false) :
    firstIndex p (c :: t) = (firstIndex p t).map (· + 1) := by
  unfold firstIndex
  rw [if_neg (by simp [h])]
  cases t <;> rfl

theorem firstIndex_q_slashes (t : List Char) (n : Nat)
    (h : firstIndex ['?'] (':' :: '/' :: '/' :: t) = some n) : 3 ≤ n := by
  rw [firstIndex_cons_miss _ _ _ (by simp only [prefixMatch]; rw [if_neg (by decide)]),
      firstIndex_cons_miss _ _ _ (by simp only [prefixMatch]; rw [if_neg (by decide)]),
      firstIndex_cons_miss _ _ _ (by simp only [prefixMatch]; rw [if_neg (by decide)])] at h
  cases hm : firstIndex ['?'] t with
  | none => rw [hm] at h; simp at h
  | some m =>
    rw [hm] at h
    simp only [Option.map, Option.some.injEq] at h
    omega

theorem take_add_three (k : Nat) (a b c : Char) (l : List Char) :
    List.take (k + 3) (a :: b :: c :: l) = a :: b :: c :: List.take k l := by
  have h3 : k + 3 = (k + 2) + 1 := by omega
  have h2 : k + 2 = (k + 1) + 1 := by omega
  have h1 : k + 1 = k + 1 := rfl
  rw [h3, List.take_succ_cons, h2, List.take_succ_cons, List.take_succ_cons]

theorem strip_no_positive_markers (uri : String)
    (h1 : goIndex uri "://" ≤ 0) (h2 : goIndex uri "?" ≤ 0) :
    stripSchemeQuery uri = uri := by
  have e1 : stripScheme uri = uri := by
    unfold stripScheme
    exact if_neg (by omega)
  unfold stripSchemeQuery
  rw [e1]
  unfold stripQuery
  exact if_neg (by omega)

end Kafka

namespace Kafka

theorem prefixMatch_refl_append (p t : List Char) : prefixMatch p (p ++ t) = true :=
  (prefixMatch_iff _ _).mpr ⟨t, rfl⟩

theorem strip_keeps_slashes (uri : String) (h : strStartsWith uri "://" = true) :
    strStartsWith (stripSchemeQuery uri) "://" = true := by
  unfold strStartsWith at h ⊢
  obtain ⟨t, ht⟩ := (prefixMatch_iff _ _).mp h
  have ht' : uri.toList = ':' :: '/' :: '/' :: t := ht
  have hpos : goIndex uri "://" = 0 := by
    unfold goIndex
    rw [firstIndex_at_head _ _ h]
    rfl
  have e1 : stripScheme uri = uri := by
    unfold stripScheme
    rw [hpos]
    exact if_neg (by omega)
  unfold stripSchemeQuery
  rw [e1]
  unfold stripQuery
  by_cases hq : goIndex uri "?" > 0
  · rw [if_pos hq]
    cases hf : firstIndex "?".toList uri.toList with
    | none =>
      exfalso
      unfold goIndex at hq
      rw [hf] at hq
      exact absurd hq (by decide)
    | some n =>
      have hgi : goIndex uri "?" = (n : Int) := by
        unfold goIndex
        rw [hf]
      rw [ht'] at hf
      have h3 : 3 ≤ n := firstIndex_q_slashes t n hf
      rw [hgi]
      obtain ⟨k, rfl⟩ : ∃ k, n = k + 3 := ⟨n - 3, by omega⟩
      show prefixMatch "://".toList (uri.toList.take ((((k : Nat) + 3 : Nat) : Int)).toNat) = true
      rw [ht']
      have htn : ((((k : Nat) + 3 : Nat) : Int)).toNat = k + 3 := by omega
      rw [htn, take_add_three]
      exact prefixMatch_refl_append [':', '/', '/'] (t.take k)
  · rw [if_neg hq]
    exact h

theorem strip_keeps_question (uri : String) (h : strStartsWith uri "?" = true)
    (hns : goIndex uri "://" ≤ 0) : stripSchemeQuery uri = uri := by
  unfold strStartsWith at h
  have hq : goIndex uri "?" = 0 := by
    unfold goIndex
    rw [firstIndex_at_head _ _ h]
    rfl
  exact strip_no_positive_markers uri hns (by omega)

end Kafka

namespace Kafka

/-- C1: `validateConnection` evaluates its checks in the fixed order
nil-check, URI-check, protocol, host, port, short-circuiting on the
first failure: a nil connection yields `NO_CONNECTION`; a connection
with empty host (and any port) but no URI and a passing (defaulted)
protocol yields `NO_HOST`, never `NO_PORT`; protocol `udp` with no URI
yields `UNSUPPORTED_PROTOCOL` whatever host and port hold; a port
resolving to zero with a valid host yields `NO_PORT`. -/
theorem C1_validateConnection_order :
    (∀ cid : String, validateConnection cid none =
      some ⟨cid, "NO_CONNECTION", "Kafka connection is not set"⟩) ∧
    (∀ (cid : String) (c : ConnectionParams), c.uri = "" →
      c.protocolWithDefault "tcp" = "tcp" → c.host = "" →
      validateConnection cid (some c) =
        some ⟨cid, "NO_HOST", "Connection host is not set"⟩) ∧
    (∀ (cid : String) (c : ConnectionParams), c.uri = "" →
      c.protocolWithDefault "tcp" = "udp" →
      validateConnection cid (some c) =
        some ⟨cid, "UNSUPPORTED_PROTOCOL", "The protocol udp is not supported"⟩) ∧
    (∀ (cid : String) (c : ConnectionParams), c.uri = "" →
      c.protocolWithDefault "tcp" = "tcp" → c.host ≠ "" → c.portWithDefault 9092 = 0 →
      validateConnection cid (some c) =
        some ⟨cid, "NO_PORT", "Connection port is not set"⟩) := by
  refine ⟨fun cid => rfl, ?_, ?_, ?_⟩
  · intro cid c h1 h2 h3
    simp [validateConnection, h1, h2, h3]
  · intro cid c h1 h2
    simp [validateConnection, h1, h2]
  · intro cid c h1 h2 h3 h4
    simp [validateConnection, h1, h2, h3, h4]

theorem C1_witness :
    validateConnection "x" none =
      some ⟨"x", "NO_CONNECTION", "Kafka connection is not set"⟩ ∧
    validateConnection "x" (some ⟨⟨[]⟩⟩) =
      some ⟨"x", "NO_HOST", "Connection host is not set"⟩ ∧
    validateConnection "x" (some ⟨⟨[("protocol", "udp"), ("host", "h"), ("port", "9092")]⟩⟩) =
      some ⟨"x", "UNSUPPORTED_PROTOCOL", "The protocol udp is not supported"⟩ ∧
    validateConnection "x" (some ⟨⟨[("host", "h"), ("port", "0")]⟩⟩) =
      some ⟨"x", "NO_PORT", "Connection port is not set"⟩ :=
  ⟨C1_validateConnection_order.1 "x",
   C1_validateConnection_order.2.1 "x" ⟨⟨[]⟩⟩ (by decide) (by decide) (by decide),
   C1_validateConnection_order.2.2.1 "x" ⟨⟨[("protocol", "udp"), ("host", "h"), ("port", "9092")]⟩⟩
     (by decide) (by decide),
   C1_validateConnection_order.2.2.2 "x" ⟨⟨[("host", "h"), ("port", "0")]⟩⟩
     (by decide) (by decide) (by decide) (by decide)⟩

/-- C2: a connection carrying a non-empty full URI passes
`validateConnection` without its protocol, host or port being
examined: the result is `none` for every such connection. -/
theorem C2_uri_bypasses_checks (cid : String) (c : ConnectionParams) (h : c.uri ≠ "") :
    validateConnection cid (some c) = none := by
  simp [validateConnection, h]

theorem C2_witness :
    ConnectionParams.uri ⟨⟨[("uri", "u"), ("protocol", "udp"), ("host", ""), ("port", "0")]⟩⟩ ≠ "" ∧
    validateConnection "x"
      (some ⟨⟨[("uri", "u"), ("protocol", "udp"), ("host", ""), ("port", "0")]⟩⟩) = none :=
  ⟨by decide,
   C2_uri_bypasses_checks "x" ⟨⟨[("uri", "u"), ("protocol", "udp"), ("host", ""), ("port", "0")]⟩⟩
     (by decide)⟩

end Kafka

namespace Kafka

/-- C3 counterexample: in the list `[{uri:"a://"}, {uri:"b"}]` every
entry has a non-empty URI, yet the output `uri` is `"b"` (taken from
the second entry), not the stripped URI of the first entry (which is
`""` because stripping `"a://"` removes everything). -/
theorem C3_counterexample :
    ConnectionParams.uri ⟨⟨[("uri", "a://")]⟩⟩ ≠ "" ∧
    ConnectionParams.uri ⟨⟨[("uri", "b")]⟩⟩ ≠ "" ∧
    (composeOptions [⟨⟨[("uri", "a://")]⟩⟩, ⟨⟨[("uri", "b")]⟩⟩] none).get "uri" = some "b" ∧
    some "b" ≠ some (stripSchemeQuery (ConnectionParams.uri ⟨⟨[("uri", "a://")]⟩⟩)) := by
  decide

/-- C3 (amended): for a non-empty connection list in which every entry
has a non-empty full URI and the URI of the first entry strips to a
non-empty string, `composeOptions` sets the output `uri` to the
stripped URI of the first entry (no port value influences it); in particular a
single connection with uri `tcp://broker:9092?x=1` yields
`options.uri == "broker:9092"`. -/
theorem C3_first_uri_wins (first : ConnectionParams) (rest : List ConnectionParams)
    (cred : Option CredentialParams)
    (hall : ∀ c ∈ first :: rest, c.uri ≠ "")
    (hs : stripSchemeQuery first.uri ≠ "") :
    (composeOptions (first :: rest) cred).get "uri" = some (stripSchemeQuery first.uri) ∧
    (composeOptions [⟨⟨[("uri", "tcp://broker:9092?x=1")]⟩⟩] none).get "uri" =
      some "broker:9092" := by
  constructor
  · unfold composeOptions
    simp only [List.foldl_cons]
    rw [composeStep_uri_ne (initState cred) first rfl (hall first (by simp))]
    rw [foldl_composeStep_globalUri_ne rest _ hs]
    simp only [hs, ne_eq, not_false_eq_true, if_pos]
    exact get_setAsObject_self _ _ _
  · decide

theorem C3_witness :
    (composeOptions [⟨⟨[("uri", "tcp://k1:9092")]⟩⟩, ⟨⟨[("uri", "tcp://k2:9093")]⟩⟩] none).get "uri"
      = some "k1:9092" := by
  have h := (C3_first_uri_wins ⟨⟨[("uri", "tcp://k1:9092")]⟩⟩ [⟨⟨[("uri", "tcp://k2:9093")]⟩⟩]
    none (by decide) (by decide)).1
  rw [h]
  decide

/-- C4: when no entry has a URI, the output `uri` is the comma-joined
`host:port` tokens in list order, unset ports defaulting to 9092; the
empty list with nil credential yields `uri == ""` and no error. -/
theorem C4_no_uri_joined_tokens (conns : List ConnectionParams) (cred : Option CredentialParams)
    (h : ∀ c ∈ conns, c.uri = "") :
    (composeOptions conns cred).get "uri" = some (joinTokens conns) ∧
    (composeOptions [] none).get "uri" = some "" ∧
    Compose "cid" [] none = (some (composeOptions [] none), none) := by
  refine ⟨?_, by decide, rfl⟩
  unfold composeOptions
  rw [foldl_composeStep_uri_empty conns (initState cred) rfl h]
  simp only [ne_eq, not_true_eq_false, if_neg, not_false_eq_true]
  have hb : (initState cred).uriBuilder = "" := rfl
  rw [hb, foldl_appendHostPort_nil]
  exact get_setAsObject_self _ _ _

theorem C4_witness :
    (composeOptions [⟨⟨[("host", "kafka1")]⟩⟩, ⟨⟨[("host", "kafka2"), ("port", "9093")]⟩⟩]
      none).get "uri" = some "kafka1:9092, kafka2:9093" := by
  have h := (C4_no_uri_joined_tokens
    [⟨⟨[("host", "kafka1")]⟩⟩, ⟨⟨[("host", "kafka2"), ("port", "9093")]⟩⟩] none (by decide)).1
  rw [h]
  decide

/-- C5: an empty-URI entry before the first URI-bearing entry still
contributes its `host:port` token to the candidate builder, but the
final `uri` is the (non-empty) stripped global URI, discarding the
candidate; and once the global URI is set, every later connection is
merged into the options for its other fields but neither consulted
for URI extraction nor appended to the candidate. -/
theorem C5_mixed_list (pre post : List ConnectionParams) (u : ConnectionParams)
    (cred : Option CredentialParams)
    (hpre : ∀ c ∈ pre, c.uri = "") (hu : u.uri ≠ "")
    (hs : stripSchemeQuery u.uri ≠ "") :
    ((pre.foldl composeStep (initState cred)).uriBuilder = joinTokens pre) ∧
    ((composeOptions (pre ++ u :: post) cred).get "uri" = some (stripSchemeQuery u.uri)) ∧
    (∀ (st : ComposeState) (c : ConnectionParams), st.globalUri ≠ "" →
      composeStep st c = ⟨st.options.setDefaults c.params, st.globalUri, st.uriBuilder⟩) := by
  refine ⟨?_, ?_, fun st c h => composeStep_globalUri_ne st c h⟩
  · rw [foldl_composeStep_uri_empty pre (initState cred) rfl hpre]
    exact foldl_appendHostPort_nil pre
  · unfold composeOptions
    rw [List.foldl_append]
    rw [foldl_composeStep_uri_empty pre (initState cred) rfl hpre]
    simp only [List.foldl_cons]
    rw [composeStep_uri_ne _ u rfl hu]
    rw [foldl_composeStep_globalUri_ne post _ hs]
    simp only [hs, ne_eq, not_false_eq_true, if_pos]
    exact get_setAsObject_self _ _ _

theorem C5_witness :
    (composeOptions [⟨⟨[("host", "h")]⟩⟩, ⟨⟨[("uri", "tcp://x")]⟩⟩, ⟨⟨[("host", "g")]⟩⟩]
      none).get "uri" = some "x" ∧
    (([⟨⟨[("host", "h")]⟩⟩] : List ConnectionParams).foldl composeStep
      (initState none)).uriBuilder = "h:9092" := by
  have h := C5_mixed_list [⟨⟨[("host", "h")]⟩⟩] [⟨⟨[("host", "g")]⟩⟩] ⟨⟨[("uri", "tcp://x")]⟩⟩
    none (by decide) (by decide) (by decide)
  refine ⟨?_, ?_⟩
  · have h2 := h.2.1
    simp only [List.cons_append, List.nil_append] at h2
    rw [h2]
    decide
  · rw [h.1]
    decide

end Kafka

namespace Kafka

/-- C6: when the two sub-resolvers return a connection list and a
credential without error, `Resolve` produces exactly the output of
`Compose` on the same correlation id, connection list and
credential. -/
theorem C6_Resolve_refines_Compose (cid : String) (conns : List (Option ConnectionParams))
    (cred : Option CredentialParams) :
    Resolve cid (Except.ok conns) (Except.ok cred) = Compose cid conns cred := rfl

/-- C7: `Resolve` and `Compose` always return either a non-nil options
bundle with nil error or a nil options value with a non-nil error,
never both and never a partial result; and when connections are
invalid the error returned is the validation error of the first
invalid connection in list order, whatever follows it. -/
theorem C7_error_value_exclusive :
    (∀ (cid : String) (r : Except ConfigError (List (Option ConnectionParams)))
        (l : Except ConfigError (Option CredentialParams)),
      (∃ o, Resolve cid r l = (some o, none)) ∨ (∃ e, Resolve cid r l = (none, some e))) ∧
    (∀ (cid : String) (conns : List (Option ConnectionParams))
        (cred : Option CredentialParams),
      (∃ o, Compose cid conns cred = (some o, none)) ∨
      (∃ e, Compose cid conns cred = (none, some e))) ∧
    (∀ (cid : String) (pre rest : List (Option ConnectionParams))
        (bad : Option ConnectionParams) (cred : Option CredentialParams) (e : ConfigError),
      (∀ c ∈ pre, validateConnection cid c = none) →
      validateConnection cid bad = some e →
      Compose cid (pre ++ bad :: rest) cred = (none, some e)) := by
  have hcompose : ∀ (cid : String) (conns : List (Option ConnectionParams))
      (cred : Option CredentialParams),
      (∃ o, Compose cid conns cred = (some o, none)) ∨
      (∃ e, Compose cid conns cred = (none, some e)) := by
    intro cid conns cred
    unfold Compose
    cases hv : firstValidationError cid conns with
    | some e => exact Or.inr ⟨e, rfl⟩
    | none => exact Or.inl ⟨_, rfl⟩
  refine ⟨?_, hcompose, ?_⟩
  · intro cid r l
    cases r with
    | error e => exact Or.inr ⟨e, rfl⟩
    | ok conns =>
      cases l with
      | error e => exact Or.inr ⟨e, rfl⟩
      | ok cred => exact hcompose cid conns cred
  · intro cid pre rest bad cred e hpre hbad
    unfold Compose
    rw [firstValidationError_append cid pre _ hpre]
    simp only [firstValidationError, hbad]

theorem C7_witness :
    Compose "x" [some ⟨⟨[("host", "h")]⟩⟩, some ⟨⟨[]⟩⟩, none] none =
      (none, some ⟨"x", "NO_HOST", "Connection host is not set"⟩) :=
  C7_error_value_exclusive.2.2 "x" [some ⟨⟨[("host", "h")]⟩⟩] [none] (some ⟨⟨[]⟩⟩) none
    ⟨"x", "NO_HOST", "Connection host is not set"⟩ (by decide) (by decide)

/-- C8 counterexample: for `[{host:"h"}, {uri:"tcp://x?q"}]` the output
`uri` is `"x"`, which is neither the own URI of the first connection
stripped (`""`) nor the synthesized `host:port` list of the URI-less
connections (`"h:9092"`). -/
theorem C8_counterexample :
    (composeOptions [⟨⟨[("host", "h")]⟩⟩, ⟨⟨[("uri", "tcp://x?q")]⟩⟩] none).get "uri" =
      some "x" ∧
    some "x" ≠ some (stripSchemeQuery (ConnectionParams.uri ⟨⟨[("host", "h")]⟩⟩)) ∧
    some "x" ≠ some (joinTokens [⟨⟨[("host", "h")]⟩⟩]) := by
  decide

/-- C8 (amended): for every connection list and credential the output
of `composeOptions` contains the key `uri`, and its value is the
stripped URI of the first connection whose URI strips to a non-empty
string, or, when there is none, the comma-joined `host:port` tokens of
the URI-less connections (`finalUriSpec`); the value is written last,
so it holds even when a credential or connection carried a `uri` field
merged earlier. -/
theorem C8_uri_always_present (conns : List ConnectionParams) (cred : Option CredentialParams) :
    (composeOptions conns cred).get "uri" = some (finalUriSpec conns "") := by
  have h := foldl_composeStep_uri_value conns (initState cred) rfl
  unfold composeOptions
  by_cases hg : (conns.foldl composeStep (initState cred)).globalUri ≠ ""
  · rw [if_pos hg] at h ⊢
    rw [get_setAsObject_self, h]
    rfl
  · rw [if_neg hg] at h ⊢
    rw [get_setAsObject_self, h]
    rfl


/-- C9: the documented two-broker scenario: credential fields are
copied, `host`/`port` come from the first connection (first-writer
wins), and `uri` aggregates both connections; the output holds exactly
the five keys `username`, `password`, `host`, `port`, `uri`. -/
theorem C9_two_broker_scenario :
    (composeOptions
        [⟨⟨[("host", "kafka1"), ("port", "9092")]⟩⟩, ⟨⟨[("host", "kafka2"), ("port", "9093")]⟩⟩]
        (some ⟨⟨[("username", "u"), ("password", "p")]⟩⟩)).get "username" = some "u" ∧
    (composeOptions
        [⟨⟨[("host", "kafka1"), ("port", "9092")]⟩⟩, ⟨⟨[("host", "kafka2"), ("port", "9093")]⟩⟩]
        (some ⟨⟨[("username", "u"), ("password", "p")]⟩⟩)).get "password" = some "p" ∧
    (composeOptions
        [⟨⟨[("host", "kafka1"), ("port", "9092")]⟩⟩, ⟨⟨[("host", "kafka2"), ("port", "9093")]⟩⟩]
        (some ⟨⟨[("username", "u"), ("password", "p")]⟩⟩)).get "host" = some "kafka1" ∧
    (composeOptions
        [⟨⟨[("host", "kafka1"), ("port", "9092")]⟩⟩, ⟨⟨[("host", "kafka2"), ("port", "9093")]⟩⟩]
        (some ⟨⟨[("username", "u"), ("password", "p")]⟩⟩)).get "port" = some "9092" ∧
    (composeOptions
        [⟨⟨[("host", "kafka1"), ("port", "9092")]⟩⟩, ⟨⟨[("host", "kafka2"), ("port", "9093")]⟩⟩]
        (some ⟨⟨[("username", "u"), ("password", "p")]⟩⟩)).get "uri" =
      some "kafka1:9092, kafka2:9093" ∧
    (composeOptions
        [⟨⟨[("host", "kafka1"), ("port", "9092")]⟩⟩, ⟨⟨[("host", "kafka2"), ("port", "9093")]⟩⟩]
        (some ⟨⟨[("username", "u"), ("password", "p")]⟩⟩)).entries.map Prod.fst =
      ["username", "password", "host", "port", "uri"] := by
  decide

/-- C10 counterexample: the URI `"?a://b"` begins with `"?"`, yet the
global URI does not keep that prefix: the `"://"` occurrence at
positive index is stripped first, leaving `"b"`. -/
theorem C10_counterexample :
    strStartsWith "?a://b" "?" = true ∧
    (composeOptions [⟨⟨[("uri", "?a://b")]⟩⟩] none).get "uri" = some "b" ∧
    strStartsWith "b" "?" = false ∧ ("b" : String) ≠ "?a://b" := by
  decide

/-- C10 (amended): stripping only occurs for a marker at a strictly
positive index: a URI with neither marker at positive index is kept
verbatim; a URI beginning with `"://"` keeps that prefix (the `://` at
index zero is never stripped); a URI beginning with `"?"` that does
not also contain `"://"` at positive index is kept verbatim; in
particular uri `"://broker:9092"` yields
`options.uri == "://broker:9092"`. -/
theorem C10_markers_at_index_zero (uri : String) :
    (goIndex uri "://" ≤ 0 → goIndex uri "?" ≤ 0 → stripSchemeQuery uri = uri) ∧
    (strStartsWith uri "://" = true → strStartsWith (stripSchemeQuery uri) "://" = true) ∧
    (strStartsWith uri "?" = true → goIndex uri "://" ≤ 0 → stripSchemeQuery uri = uri) ∧
    (composeOptions [⟨⟨[("uri", "://broker:9092")]⟩⟩] none).get "uri" =
      some "://broker:9092" := by
  refine ⟨strip_no_positive_markers uri, strip_keeps_slashes uri,
    strip_keeps_question uri, by decide⟩

theorem C10_witness :
    stripSchemeQuery "abc" = "abc" ∧
    strStartsWith (stripSchemeQuery "://b?q") "://" = true ∧
    stripSchemeQuery "?abc" = "?abc" :=
  ⟨(C10_markers_at_index_zero "abc").1 (by decide) (by decide),
   (C10_markers_at_index_zero "://b?q").2.1 (by decide),
   (C10_markers_at_index_zero "?abc").2.2.1 (by decide) (by decide)⟩

end Kafka
